import Mathlib

/-!
Verification of the cart/order subsystem of an online-cinema backend.

The definitions below are a shallow embedding of the route handlers in
`src/routes/carts.py` and `src/routes/orders.py`.  The relational state is a
record of row lists; SQLAlchemy queries become list filters and finds; every
handler is a pure function from the database state (plus its arguments) to a
result and, for mutating handlers, the successor state.  Errors carry the HTTP
status code and the detail string used by the handler.  The ORM model classes
(`database.models`) and the helper `get_cart_by_user` are imported by the
routes but are not part of the provided sources; they are modelled from the
spec where noted.
-/

namespace Cinema

/-- Modelled from the spec: a `User` row — identity, group name
(`admin` / `moderator` / regular) and an e-mail address (used for the
moderator notification). The routes compare the group to the string
literal `"admin"` / the enum value `MODERATOR`. -/
structure User where
  id : Nat
  group : String
  email : String
deriving Repr, DecidableEq

/-- Modelled from the spec: a catalog `Movie` row with id, name, price,
release year and genre names. Read-only for this subsystem. -/
structure Movie where
  id : Nat
  name : String
  price : Rat
  year : Nat
  genres : List String
deriving Repr, DecidableEq

/-- Modelled from the spec: a `Cart` row, one-to-one with `User`. -/
structure Cart where
  id : Nat
  user_id : Nat
deriving Repr, DecidableEq

/-- Modelled from the spec: a `CartItem` row, belonging to one cart and
referencing one movie. -/
structure CartItem where
  cart_id : Nat
  movie_id : Nat
deriving Repr, DecidableEq

/-- Modelled from the spec: an `Order` row — owner, status string
(`pending` / `paid` / `cancelled`), total amount fixed at creation, and a
creation timestamp (an abstract `Nat` clock value). -/
structure Order where
  id : Nat
  user_id : Nat
  status : String
  total_amount : Rat
  created_at : Nat
deriving Repr, DecidableEq

/-- Modelled from the spec: an `OrderItem` row with the price snapshotted
at order-creation time. -/
structure OrderItem where
  order_id : Nat
  movie_id : Nat
  price_at_order : Rat
deriving Repr, DecidableEq

/-- The relational state seen by the cart and order routes, plus the current
clock value used for `created_at` of a newly inserted order. -/
structure DB where
  users : List User
  movies : List Movie
  carts : List Cart
  cartItems : List CartItem
  orders : List Order
  orderItems : List OrderItem
  now : Nat
deriving Repr, DecidableEq

/-- An HTTP error response: status code and detail string. -/
structure ApiError where
  code : Nat
  detail : String
deriving Repr, DecidableEq

/-- Decidable equality for `Except` results, used to evaluate concrete
scenarios. -/
instance {ε α : Type} [DecidableEq ε] [DecidableEq α] : DecidableEq (Except ε α)
  | .error e, .error f =>
    if h : e = f then .isTrue (by rw [h]) else .isFalse (by intro hh; cases hh; exact h rfl)
  | .error _, .ok _ => .isFalse (by intro hh; cases hh)
  | .ok _, .error _ => .isFalse (by intro hh; cases hh)
  | .ok x, .ok y =>
    if h : x = y then .isTrue (by rw [h]) else .isFalse (by intro hh; cases hh; exact h rfl)

/-- `select(User).where(User.id == uid)`, first row. -/
def findUser (db : DB) (uid : Nat) : Option User :=
  db.users.find? (fun u => u.id == uid)

/-- `select(Movie).where(Movie.id == mid)`, first row. -/
def findMovie (db : DB) (mid : Nat) : Option Movie :=
  db.movies.find? (fun m => m.id == mid)

/-- `select(Order).filter(Order.id == oid)`, first row. -/
def findOrder (db : DB) (oid : Nat) : Option Order :=
  db.orders.find? (fun o => o.id == oid)

/-- The `items` relationship of an order: all `OrderItem` rows with this
`order_id`. -/
def orderItemsOf (db : DB) (oid : Nat) : List OrderItem :=
  db.orderItems.filter (fun it => it.order_id == oid)

/-- The `cart_items` relationship of a cart: all `CartItem` rows with this
`cart_id`. -/
def cartItemsOf (db : DB) (cart : Cart) : List CartItem :=
  db.cartItems.filter (fun ci => ci.cart_id == cart.id)

/-- `select(Order).filter(Order.user_id == uid, Order.status == "pending")`. -/
def pendingOrders (db : DB) (uid : Nat) : List Order :=
  db.orders.filter (fun o => o.user_id == uid && o.status == "pending")

/-- Modelled from the spec: `get_cart_by_user(user_id, db)` is imported by
the orders route from `routes.carts` but is absent from the provided
sources; per the spec the cart is one-to-one with the user, so it is the
user's `Cart` row, if any. -/
def getCartByUser (db : DB) (uid : Nat) : Option Cart :=
  db.carts.find? (fun c => c.user_id == uid)

/-- `select(Movie).where(Movie.id.in_([item.movie_id for item in cart_items]))`:
the catalog movies still existing for the cart's items. -/
def moviesInCartOf (db : DB) (cart : Cart) : List Movie :=
  db.movies.filter (fun m => (cartItemsOf db cart).any (fun ci => ci.movie_id == m.id))

/-- Python truthiness of an optional string parameter (`None` and `""` are
falsy). -/
def truthyS : Option String → Bool
  | none => false
  | some s => !(s == "")

/-- Python truthiness of an optional integer parameter (`None` and `0` are
falsy). -/
def truthyN : Option Nat → Bool
  | none => false
  | some n => !(n == 0)

/-- Modelled from the spec: `datetime.strptime(order_date, "%Y-%m-%d").date()`
— accepts a `YYYY-MM-DD` string with numeric in-range components and yields
an abstract day key; anything else is a parse failure. -/
def parseDate (s : String) : Option Nat :=
  match s.splitOn "-" with
  | [y, m, d] =>
    match y.toNat?, m.toNat?, d.toNat? with
    | some yn, some mn, some dn =>
      if y.length = 4 ∧ 1 ≤ mn ∧ mn ≤ 12 ∧ 1 ≤ dn ∧ dn ≤ 31 then
        some (yn * 372 + mn * 31 + dn)
      else none
    | _, _, _ => none
  | _ => none

/-- Modelled from the spec: `func.date(Order.created_at)` — the calendar-day
component of the abstract timestamp. -/
def dayOf (t : Nat) : Nat := t / 86400

/-- The ordering used by `query.order_by(Order.created_at.desc())`. -/
def createdGe (a b : Order) : Prop := b.created_at ≤ a.created_at

instance : DecidableRel createdGe := fun a b => Nat.decLe b.created_at a.created_at

instance : IsTotal Order createdGe := ⟨fun a b => Nat.le_total b.created_at a.created_at⟩

instance : IsTrans Order createdGe := ⟨fun _ _ _ hab hbc => Nat.le_trans hbc hab⟩

/-- `OrderItemResponseSchema`. -/
structure OrderItemView where
  movie_id : Nat
  price_at_order : Rat
deriving Repr, DecidableEq

/-- `OrderResponseSchema`. -/
structure OrderResponse where
  id : Nat
  user_id : Nat
  created_at : Nat
  status : String
  total_amount : Rat
  items : List OrderItemView
deriving Repr, DecidableEq

/-- `OrderWithMoviesResponseSchema`.  `movies` holds, per order item, the
name of the referenced movie; a missing movie row surfaces as `none` (the
source's `item.movie` is `None` there and `.name` would raise — the claims
only evaluate this where every referenced movie exists). -/
structure OrderWithMovies where
  id : Nat
  user_id : Nat
  created_at : Nat
  status : String
  total_amount : Rat
  movies : List (Option String)
deriving Repr, DecidableEq

/-- `OrderListResponseSchema`. -/
structure OrderListResponse where
  orders : List OrderWithMovies
  prev_page : Option String
  next_page : Option String
  total_pages : Nat
  total_items : Nat
deriving Repr, DecidableEq

/-- `CartItemResponse` schema. -/
structure CartItemResponse where
  id : Nat
  title : String
  price : Rat
  genre : List String
  release_year : Nat
deriving Repr, DecidableEq

/-- `CartResponse` schema. -/
structure CartResponse where
  id : Nat
  items : List CartItemResponse
deriving Repr, DecidableEq

/-- The movie-name view of an order's items, as built by
`[item.movie.name for item in order.items]` under a joined load. -/
def movieNamesOf (db : DB) (oid : Nat) : List (Option String) :=
  (orderItemsOf db oid).map (fun it => (findMovie db it.movie_id).map Movie.name)

/-- `GET /cart/{cart_id}/` (`get_cart` in `routes/carts.py`).  Looks up the
requester by their own id, applies the admin/ownership guard, then fetches
the cart filtered by `Cart.id == cart_id` and `Cart.user_id == user_id`. -/
def get_cart (db : DB) (cart_id : Nat) (user_id : Nat) : Except ApiError CartResponse :=
  match findUser db user_id with
  | none => .error ⟨404, "User not found. Please sign up."⟩
  | some user =>
    if user.group != "admin" && user.id != user_id then
      .error ⟨403, "Not authorized to view this cart."⟩
    else
      match db.carts.find? (fun c => c.id == cart_id && c.user_id == user_id) with
      | none => .error ⟨404, "Cart not found."⟩
      | some cart =>
        .ok ⟨cart.id,
          (cartItemsOf db cart).filterMap (fun ci =>
            (findMovie db ci.movie_id).map (fun m =>
              CartItemResponse.mk m.id m.name m.price m.genres m.year))⟩

/-- Delete the first cart-item row equal to the given one (the ORM
`db.delete(cart_item)` on the fetched row). -/
def removeCartItemRow : List CartItem → CartItem → List CartItem
  | [], _ => []
  | x :: rest, item => if x == item then rest else x :: removeCartItemRow rest item

/-- `DELETE /cart/{cart_id}/{movie_id}/` (`remove_movie_from_cart` in
`routes/carts.py`).  `commitFails` injects a `SQLAlchemyError` at the
delete/commit; on success the result also carries the e-mail addresses of
the moderators scheduled for background notification. -/
def remove_movie_from_cart (db : DB) (movie_id cart_id user_id : Nat) (commitFails : Bool) :
    Except ApiError (String × List String) × DB :=
  match findUser db user_id with
  | none => (.error ⟨404, "User not found. Please sign up."⟩, db)
  | some _ =>
    match findMovie db movie_id with
    | none => (.error ⟨400, "Movie not found"⟩, db)
    | some movie =>
      match db.carts.find? (fun c => c.id == cart_id && c.user_id == user_id) with
      | none => (.error ⟨400, "Cart not found"⟩, db)
      | some cart =>
        match db.cartItems.find? (fun ci => ci.cart_id == cart.id && ci.movie_id == movie_id) with
        | none => (.error ⟨404, "Movie not found in cart"⟩, db)
        | some item =>
          if commitFails then (.error ⟨500, "Please try again later."⟩, db)
          else
            let moderators := (db.users.filter (fun u => u.group == "moderator")).map User.email
            (.ok (movie.name ++ " removed from cart id " ++ toString cart.id ++ " successfully",
                  moderators),
             { db with cartItems := removeCartItemRow db.cartItems item })

/-- A fresh primary key for a new order row. -/
def freshOrderId (db : DB) : Nat :=
  ((db.orders.map Order.id).foldr Nat.max 0) + 1

/-- Where, if anywhere, SQLAlchemy raises during `create_order`'s `try`
block: `inTransaction` is a failure inside the write transaction (order
insert, flush, item inserts, cart deletion, commit), which the handler's
rollback undoes entirely; `onReload` is a failure in the post-commit
reload select (lines 161-165 of `routes/orders.py`), which sits inside the
same `try` but after the transaction has committed, so the rollback is a
no-op on the persisted writes. -/
inductive DbFailure where
  | noFailure
  | inTransaction
  | onReload
deriving Repr, DecidableEq

/-- `POST /orders` (`create_order` in `routes/orders.py`).  `failAt`
injects a `SQLAlchemyError` at the chosen point of the `try` block: a
failure `inTransaction` is rolled back, so the state is returned
unchanged; a failure `onReload` surfaces the same 500 while the new order,
its items and the cart deletion — already committed — remain persisted.
A user without a cart is treated per the spec's precondition as having an
empty cart (`get_cart_by_user` is not in the provided sources). -/
def create_order (db : DB) (uid : Nat) (failAt : DbFailure) : Except ApiError Order × DB :=
  if !(pendingOrders db uid).isEmpty then
    (.error ⟨400, "You have unpaid order"⟩, db)
  else
    match getCartByUser db uid with
    | none => (.error ⟨400, "Your cart is empty"⟩, db)
    | some cart =>
      let movies_in_cart := moviesInCartOf db cart
      if movies_in_cart.isEmpty then
        (.error ⟨400, "Your cart is empty"⟩, db)
      else
        let oid := freshOrderId db
        let total_amount := (movies_in_cart.map Movie.price).sum
        let order : Order := ⟨oid, uid, "pending", total_amount, db.now⟩
        let new_items := movies_in_cart.map (fun m => OrderItem.mk oid m.id m.price)
        let committed : DB :=
          { db with
              orders := db.orders ++ [order]
              orderItems := db.orderItems ++ new_items
              cartItems := db.cartItems.filter (fun ci => !(ci.cart_id == cart.id))
              carts := db.carts.filter (fun c => !(c.id == cart.id)) }
        match failAt with
        | .inTransaction => (.error ⟨500, "Internal server error"⟩, db)
        | .onReload => (.error ⟨500, "Internal server error"⟩, committed)
        | .noFailure => (.ok order, committed)

/-- The ownership/admin guard shared verbatim by `get_order`,
`update_order_status`, `delete_order` and `cancel_order`: the owner passes
without a user lookup; otherwise the requester row is fetched and must be
in the `admin` group. -/
def checkAccess (db : DB) (o : Order) (uid : Nat) : Option ApiError :=
  if o.user_id == uid then none
  else
    match findUser db uid with
    | none => some ⟨404, "User not found"⟩
    | some u => if u.group == "admin" then none else some ⟨403, "Access forbidden"⟩

/-- `GET /orders/{order_id}` (`get_order` in `routes/orders.py`). -/
def get_order (db : DB) (order_id uid : Nat) : Except ApiError OrderWithMovies :=
  match findOrder db order_id with
  | none => .error ⟨404, "Order not found"⟩
  | some o =>
    match checkAccess db o uid with
    | some e => .error e
    | none =>
      if o.status == "cancelled" then
        .error ⟨400, "Order is cancelled and cannot be accessed"⟩
      else
        .ok ⟨o.id, o.user_id, o.created_at, o.status, o.total_amount, movieNamesOf db o.id⟩

/-- Set the status of the first order row with the given id (the ORM
mutation `order.status = status` on the fetched row). -/
def setOrderStatusFirst : List Order → Nat → String → List Order
  | [], _, _ => []
  | o :: rest, oid, s =>
    if o.id == oid then { o with status := s } :: rest
    else o :: setOrderStatusFirst rest oid s

/-- The item list attached to `OrderResponseSchema` after a status change:
`select(OrderItem).filter(OrderItem.order_id == order_id)`. -/
def orderItemViews (db : DB) (oid : Nat) : List OrderItemView :=
  (orderItemsOf db oid).map (fun it => OrderItemView.mk it.movie_id it.price_at_order)

/-- `PUT /orders/{order_id}` (`update_order_status` in `routes/orders.py`). -/
def update_order_status (db : DB) (order_id : Nat) (status : String) (uid : Nat) :
    Except ApiError OrderResponse × DB :=
  if !(status == "pending" || status == "paid" || status == "cancelled") then
    (.error ⟨400, "Invalid status"⟩, db)
  else
    match findOrder db order_id with
    | none => (.error ⟨404, "Order not found"⟩, db)
    | some o =>
      match checkAccess db o uid with
      | some e => (.error e, db)
      | none =>
        if o.status == "paid" || o.status == "cancelled" then
          (.error ⟨400, "Cannot update a paid or cancelled order"⟩, db)
        else
          let db' := { db with orders := setOrderStatusFirst db.orders order_id status }
          (.ok ⟨o.id, o.user_id, o.created_at, status, o.total_amount,
                orderItemViews db' order_id⟩,
           db')

/-- Delete the first order row with the given id (the ORM
`db.delete(order)` on the fetched row). -/
def removeOrderById : List Order → Nat → List Order
  | [], _ => []
  | o :: rest, oid => if o.id == oid then rest else o :: removeOrderById rest oid

/-- `DELETE /orders/{order_id}` (`delete_order` in `routes/orders.py`):
deletes each of the order's items, then the order row. -/
def delete_order (db : DB) (order_id uid : Nat) : Except ApiError Unit × DB :=
  match findOrder db order_id with
  | none => (.error ⟨404, "Order not found"⟩, db)
  | some o =>
    match checkAccess db o uid with
    | some e => (.error e, db)
    | none =>
      if !(o.status == "pending") then
        (.error ⟨400, "Cannot delete a paid or cancelled order"⟩, db)
      else
        (.ok (),
         { db with
             orderItems := db.orderItems.filter (fun it => !(it.order_id == order_id))
             orders := removeOrderById db.orders order_id })

/-- `PUT /orders/{order_id}/cancel` (`cancel_order` in `routes/orders.py`). -/
def cancel_order (db : DB) (order_id uid : Nat) : Except ApiError OrderResponse × DB :=
  match findOrder db order_id with
  | none => (.error ⟨404, "Order not found"⟩, db)
  | some o =>
    match checkAccess db o uid with
    | some e => (.error e, db)
    | none =>
      if !(o.status == "pending") then
        (.error ⟨400, "Only pending orders can be cancelled"⟩, db)
      else
        let db' := { db with orders := setOrderStatusFirst db.orders order_id "cancelled" }
        (.ok ⟨o.id, o.user_id, o.created_at, "cancelled", o.total_amount,
              orderItemViews db' order_id⟩,
         db')

/-- `GET /orders` (`get_orders` in `routes/orders.py`).  Filter parameters
follow Python truthiness: `None`, `""` and `0` all leave the corresponding
filter unapplied. -/
def get_orders (db : DB) (page per_page : Nat) (status : Option String)
    (user_id : Option Nat) (order_date : Option String) (uid : Nat) :
    Except ApiError OrderListResponse := do
  let some current_user := findUser db uid | throw ⟨404, "User not found"⟩
  if current_user.group != "admin" && (truthyS status || truthyN user_id || truthyS order_date) then
    throw ⟨403, "Access forbidden for non-admin users"⟩
  let q1 := if truthyS status then
      db.orders.filter (fun o => o.status == status.getD "")
    else db.orders
  let q2 := if truthyN user_id then
      q1.filter (fun o => o.user_id == user_id.getD 0)
    else q1.filter (fun o => o.user_id == current_user.id)
  let q3 ← if truthyS order_date then
      match parseDate (order_date.getD "") with
      | none => throw ⟨400, "Invalid date format. Use YYYY-MM-DD."⟩
      | some day => pure (q2.filter (fun o => dayOf o.created_at == day))
    else pure q2
  let sorted := q3.insertionSort createdGe
  let total_items := sorted.length
  let offset := (page - 1) * per_page
  let page_orders := (sorted.drop offset).take per_page
  let order_views := page_orders.map (fun o =>
    OrderWithMovies.mk o.id o.user_id o.created_at o.status o.total_amount
      (movieNamesOf db o.id))
  let total_pages := (total_items + per_page - 1) / per_page
  let prev_page := if 1 < page then
      some ("/orders?page=" ++ toString (page - 1) ++ "&per_page=" ++ toString per_page)
    else none
  let next_page := if page < total_pages then
      some ("/orders?page=" ++ toString (page + 1) ++ "&per_page=" ++ toString per_page)
    else none
  pure ⟨order_views, prev_page, next_page, total_pages, total_items⟩

/-! ### Basic query lemmas -/

theorem findUser_id {db : DB} {uid : Nat} {u : User} (h : findUser db uid = some u) :
    u.id = uid := by
  have h' := List.find?_some h
  simpa using h'

theorem findOrder_id {db : DB} {oid : Nat} {o : Order} (h : findOrder db oid = some o) :
    o.id = oid := by
  have h' := List.find?_some h
  simpa using h'

theorem findOrder_mem {db : DB} {oid : Nat} {o : Order} (h : findOrder db oid = some o) :
    o ∈ db.orders :=
  List.mem_of_find?_eq_some h

/-! ### The successful path of `create_order` -/

/-- When the preconditions hold and no persistence failure is injected,
`create_order` computes exactly this result. -/
theorem create_order_success_eq (db : DB) (uid : Nat) (cart : Cart)
    (hcart : getCartByUser db uid = some cart)
    (hnp : pendingOrders db uid = [])
    (hne : (moviesInCartOf db cart).isEmpty = false) :
    create_order db uid .noFailure =
      (.ok ⟨freshOrderId db, uid, "pending",
            ((moviesInCartOf db cart).map Movie.price).sum, db.now⟩,
       { db with
           orders := db.orders ++
             [⟨freshOrderId db, uid, "pending",
               ((moviesInCartOf db cart).map Movie.price).sum, db.now⟩]
           orderItems := db.orderItems ++
             (moviesInCartOf db cart).map (fun m => OrderItem.mk (freshOrderId db) m.id m.price)
           cartItems := db.cartItems.filter (fun ci => !(ci.cart_id == cart.id))
           carts := db.carts.filter (fun c => !(c.id == cart.id)) }) := by
  unfold create_order
  rw [hnp, hcart]
  simp [hne]

/-- C1: for a user with no pending order whose cart references at least one
movie still in the catalog, `create_order` appends exactly one new `pending`
order whose `total_amount` is the sum of the current catalog prices of the
cart's (still existing) movies, appends one `OrderItem` per such movie with
`price_at_order` equal to that movie's current price, and deletes every
`CartItem` of the cart together with the `Cart` row itself. -/
theorem create_order_happy_path (db : DB) (uid : Nat) (cart : Cart)
    (hcart : getCartByUser db uid = some cart)
    (hnp : pendingOrders db uid = [])
    (hne : (moviesInCartOf db cart).isEmpty = false) :
    ∃ o : Order,
      (create_order db uid .noFailure).1 = .ok o ∧
      o.status = "pending" ∧
      o.total_amount = ((moviesInCartOf db cart).map Movie.price).sum ∧
      (create_order db uid .noFailure).2.orders = db.orders ++ [o] ∧
      (create_order db uid .noFailure).2.orderItems =
        db.orderItems ++ (moviesInCartOf db cart).map (fun m => OrderItem.mk o.id m.id m.price) ∧
      (create_order db uid .noFailure).2.cartItems =
        db.cartItems.filter (fun ci => !(ci.cart_id == cart.id)) ∧
      (create_order db uid .noFailure).2.carts =
        db.carts.filter (fun c => !(c.id == cart.id)) := by
  rw [create_order_success_eq db uid cart hcart hnp hne]
  exact ⟨_, rfl, rfl, rfl, rfl, rfl, rfl, rfl⟩

/-- Database for the spec's scenario: one user, a cart holding one $10
movie, no orders. -/
def dbTenDollar : DB :=
  { users := [⟨1, "user", "alice@example.com"⟩]
    movies := [⟨7, "Inception", 10, 2010, ["Sci-Fi"]⟩]
    carts := [⟨3, 1⟩]
    cartItems := [⟨3, 7⟩]
    orders := []
    orderItems := []
    now := 1000 }

theorem create_order_happy_path_witness :
    (getCartByUser dbTenDollar 1 = some ⟨3, 1⟩ ∧
     pendingOrders dbTenDollar 1 = [] ∧
     (moviesInCartOf dbTenDollar ⟨3, 1⟩).isEmpty = false) ∧
    (∃ o : Order,
      (create_order dbTenDollar 1 .noFailure).1 = .ok o ∧
      o.status = "pending" ∧
      o.total_amount = ((moviesInCartOf dbTenDollar ⟨3, 1⟩).map Movie.price).sum ∧
      (create_order dbTenDollar 1 .noFailure).2.orders = dbTenDollar.orders ++ [o] ∧
      (create_order dbTenDollar 1 .noFailure).2.orderItems =
        dbTenDollar.orderItems ++
          (moviesInCartOf dbTenDollar ⟨3, 1⟩).map (fun m => OrderItem.mk o.id m.id m.price) ∧
      (create_order dbTenDollar 1 .noFailure).2.cartItems =
        dbTenDollar.cartItems.filter (fun ci => !(ci.cart_id == (3 : Nat))) ∧
      (create_order dbTenDollar 1 .noFailure).2.carts =
        dbTenDollar.carts.filter (fun c => !(c.id == (3 : Nat)))) :=
  ⟨⟨by decide, by decide, by decide⟩,
   create_order_happy_path dbTenDollar 1 ⟨3, 1⟩ (by decide) (by decide) (by decide)⟩

/-- C2 counterexample: a failing execution of `create_order` with changed
state — when the `SQLAlchemyError` strikes the post-commit reload select
(inside the `try`, after the write transaction has committed), the handler
surfaces 500 yet the new pending order and its item are visible and the
cart and its items are deleted. -/
theorem create_order_reload_failure_cex :
    (create_order dbTenDollar 1 .onReload).1 = .error ⟨500, "Internal server error"⟩ ∧
    (create_order dbTenDollar 1 .onReload).2.orders.map Order.user_id = [1] ∧
    (create_order dbTenDollar 1 .onReload).2.orders.map Order.status = ["pending"] ∧
    (create_order dbTenDollar 1 .onReload).2.orderItems = [⟨1, 7, 10⟩] ∧
    (create_order dbTenDollar 1 .onReload).2.carts = [] ∧
    (create_order dbTenDollar 1 .onReload).2.cartItems = [] ∧
    (create_order dbTenDollar 1 .onReload).2 ≠ dbTenDollar := by
  decide

/-- C2 (amended): failures inside the order-creation write transaction are
all-or-nothing — the rollback leaves the state unchanged, no order is ever
returned, and once past the preconditions the surfaced error is 500; but a
`SQLAlchemyError` in the post-commit reload select also surfaces 500 while
the new order, its items and the cart deletion, already committed, stay
visible (the state equals the success state). -/
theorem create_order_failure_paths (db : DB) (uid : Nat) :
    ((create_order db uid .inTransaction).2 = db ∧
     ∀ o : Order, (create_order db uid .inTransaction).1 ≠ .ok o) ∧
    (∀ cart : Cart, getCartByUser db uid = some cart →
      pendingOrders db uid = [] →
      (moviesInCartOf db cart).isEmpty = false →
      (create_order db uid .inTransaction).1 = .error ⟨500, "Internal server error"⟩) ∧
    (∀ cart : Cart, getCartByUser db uid = some cart →
      pendingOrders db uid = [] →
      (moviesInCartOf db cart).isEmpty = false →
      (create_order db uid .onReload).1 = .error ⟨500, "Internal server error"⟩ ∧
      (create_order db uid .onReload).2 = (create_order db uid .noFailure).2) := by
  refine ⟨?_, ?_, ?_⟩
  · unfold create_order
    split
    · exact ⟨rfl, fun o h => by cases h⟩
    · cases hcart : getCartByUser db uid with
      | none => exact ⟨rfl, fun o h => by cases h⟩
      | some cart =>
        dsimp only
        split
        · exact ⟨rfl, fun o h => by cases h⟩
        · exact ⟨rfl, fun o h => by cases h⟩
  · intro cart hcart hnp hne
    unfold create_order
    rw [hnp, hcart]
    simp [hne]
  · intro cart hcart hnp hne
    unfold create_order
    rw [hnp, hcart]
    simp [hne]

theorem create_order_failure_paths_witness :
    (getCartByUser dbTenDollar 1 = some ⟨3, 1⟩ ∧
     pendingOrders dbTenDollar 1 = [] ∧
     (moviesInCartOf dbTenDollar ⟨3, 1⟩).isEmpty = false) ∧
    (create_order dbTenDollar 1 .inTransaction).2 = dbTenDollar ∧
    (create_order dbTenDollar 1 .inTransaction).1 =
      .error ⟨500, "Internal server error"⟩ ∧
    (create_order dbTenDollar 1 .onReload).1 = .error ⟨500, "Internal server error"⟩ ∧
    (create_order dbTenDollar 1 .onReload).2 = (create_order dbTenDollar 1 .noFailure).2 :=
  ⟨⟨by decide, by decide, by decide⟩,
   (create_order_failure_paths dbTenDollar 1).1.1,
   (create_order_failure_paths dbTenDollar 1).2.1 ⟨3, 1⟩ (by decide) (by decide) (by decide),
   ((create_order_failure_paths dbTenDollar 1).2.2 ⟨3, 1⟩ (by decide) (by decide)
     (by decide)).1,
   ((create_order_failure_paths dbTenDollar 1).2.2 ⟨3, 1⟩ (by decide) (by decide)
     (by decide)).2⟩

/-- C10: when the cart also references movies that no longer exist in the
catalog, the order is created over the still-existing movies only — the
total and the new `OrderItem`s cover exactly `moviesInCartOf` — while every
`CartItem` of the cart, the stale ones included, is deleted, and no error
is reported. -/
theorem create_order_skips_stale_movies (db : DB) (uid : Nat) (cart : Cart)
    (hcart : getCartByUser db uid = some cart)
    (hnp : pendingOrders db uid = [])
    (hne : (moviesInCartOf db cart).isEmpty = false)
    (hstale : ∃ ci ∈ cartItemsOf db cart, findMovie db ci.movie_id = none) :
    ∃ o : Order,
      (create_order db uid .noFailure).1 = .ok o ∧
      o.total_amount = ((moviesInCartOf db cart).map Movie.price).sum ∧
      (create_order db uid .noFailure).2.orderItems =
        db.orderItems ++ (moviesInCartOf db cart).map (fun m => OrderItem.mk o.id m.id m.price) ∧
      (∀ ci ∈ cartItemsOf db cart, ci ∉ (create_order db uid .noFailure).2.cartItems) := by
  rw [create_order_success_eq db uid cart hcart hnp hne]
  refine ⟨_, rfl, rfl, rfl, ?_⟩
  intro ci hci hmem
  have h1 : (ci.cart_id == cart.id) = true := by
    have := List.mem_filter.mp hci
    simpa using this.2
  have h2 : (!(ci.cart_id == cart.id)) = true := (List.mem_filter.mp hmem).2
  rw [h1] at h2
  cases h2

/-- Database for the stale-movie scenario: the cart holds one existing $10
movie and one reference to a movie (id 99) no longer in the catalog. -/
def dbStale : DB :=
  { users := [⟨1, "user", "alice@example.com"⟩]
    movies := [⟨7, "Inception", 10, 2010, ["Sci-Fi"]⟩]
    carts := [⟨3, 1⟩]
    cartItems := [⟨3, 7⟩, ⟨3, 99⟩]
    orders := []
    orderItems := []
    now := 1000 }

theorem create_order_skips_stale_movies_witness :
    (getCartByUser dbStale 1 = some ⟨3, 1⟩ ∧
     pendingOrders dbStale 1 = [] ∧
     (moviesInCartOf dbStale ⟨3, 1⟩).isEmpty = false ∧
     (⟨3, 99⟩ : CartItem) ∈ cartItemsOf dbStale ⟨3, 1⟩ ∧
     findMovie dbStale 99 = none) ∧
    (∃ o : Order,
      (create_order dbStale 1 .noFailure).1 = .ok o ∧
      o.total_amount = ((moviesInCartOf dbStale ⟨3, 1⟩).map Movie.price).sum ∧
      (create_order dbStale 1 .noFailure).2.orderItems =
        dbStale.orderItems ++
          (moviesInCartOf dbStale ⟨3, 1⟩).map (fun m => OrderItem.mk o.id m.id m.price) ∧
      (∀ ci ∈ cartItemsOf dbStale ⟨3, 1⟩, ci ∉ (create_order dbStale 1 .noFailure).2.cartItems)) :=
  ⟨⟨by decide, by decide, by decide, by decide, by decide⟩,
   create_order_skips_stale_movies dbStale 1 ⟨3, 1⟩ (by decide) (by decide) (by decide)
     ⟨⟨3, 99⟩, by decide, by decide⟩⟩

/-! ### The one-pending-order-per-user invariant -/

/-- A status string actually produced by the operations. -/
def statusOk (o : Order) : Prop :=
  o.status = "pending" ∨ o.status = "paid" ∨ o.status = "cancelled"

/-- The strengthened reachable-state invariant: every order carries one of
the three statuses, and every user has at most one pending order. -/
def Inv (db : DB) : Prop :=
  (∀ o ∈ db.orders, statusOk o) ∧ ∀ u : Nat, (pendingOrders db u).length ≤ 1

theorem mem_setOrderStatusFirst {l : List Order} {oid : Nat} {s : String} {o : Order}
    (h : o ∈ setOrderStatusFirst l oid s) : o ∈ l ∨ o.status = s := by
  induction l with
  | nil => cases h
  | cons x xs ih =>
    unfold setOrderStatusFirst at h
    by_cases hx : (x.id == oid) = true
    · rw [if_pos hx] at h
      rcases List.mem_cons.mp h with h | h
      · subst h; exact Or.inr rfl
      · exact Or.inl (List.mem_cons_of_mem _ h)
    · rw [if_neg hx] at h
      rcases List.mem_cons.mp h with h | h
      · subst h; exact Or.inl (List.mem_cons_self _ _)
      · rcases ih h with h | h
        · exact Or.inl (List.mem_cons_of_mem _ h)
        · exact Or.inr h

/-- Updating the status of the first order with a given id never increases
any user's pending-order count, provided the updated row was pending. -/
theorem setFirst_pending_length (l : List Order) (oid : Nat) (s : String) (u : Nat)
    (h : ∀ o : Order, l.find? (fun o => o.id == oid) = some o → o.status = "pending") :
    ((setOrderStatusFirst l oid s).filter
        (fun o => o.user_id == u && o.status == "pending")).length ≤
      (l.filter (fun o => o.user_id == u && o.status == "pending")).length := by
  induction l with
  | nil => exact Nat.le_refl _
  | cons x xs ih =>
    by_cases hx : (x.id == oid) = true
    · have hxp : x.status = "pending" := by
        apply h x
        simp [List.find?, hx]
      unfold setOrderStatusFirst
      rw [if_pos hx]
      by_cases hu : (x.user_id == u) = true
      · by_cases hs : (s == "pending") = true
        · simp [List.filter, hu, hs, hxp]
        · simp only [Bool.not_eq_true] at hs
          simp [List.filter, hu, hs, hxp]
      · simp only [Bool.not_eq_true] at hu
        simp [List.filter, hu]
    · have h' : ∀ o : Order, xs.find? (fun o => o.id == oid) = some o → o.status = "pending" := by
        intro o ho
        apply h o
        simp [List.find?, hx, ho]
      unfold setOrderStatusFirst
      rw [if_neg hx]
      by_cases hp : (x.user_id == u && x.status == "pending") = true
      · simp [List.filter, hp]
        exact ih h'
      · simp only [Bool.not_eq_true] at hp
        simp [List.filter, hp]
        exact ih h'

theorem removeOrderById_sublist (l : List Order) (oid : Nat) :
    (removeOrderById l oid).Sublist l := by
  induction l with
  | nil => exact List.Sublist.refl _
  | cons x xs ih =>
    unfold removeOrderById
    by_cases hx : (x.id == oid) = true
    · rw [if_pos hx]
      exact List.Sublist.cons x (List.Sublist.refl xs)
    · rw [if_neg hx]
      exact List.Sublist.cons₂ x ih

theorem inv_orders_append_pending (db : DB) (uid : Nat) (o : Order) (db2 : DB)
    (horders : db2.orders = db.orders ++ [o])
    (hInv : Inv db) (hnp : pendingOrders db uid = [])
    (huid : o.user_id = uid) (hst : o.status = "pending") : Inv db2 := by
  constructor
  · intro x hx
    rw [horders] at hx
    rcases List.mem_append.mp hx with h | h
    · exact hInv.1 x h
    · rcases List.mem_cons.mp h with h | h
      · subst h; exact Or.inl hst
      · cases h
  · intro u
    show (List.filter (fun x => x.user_id == u && x.status == "pending") db2.orders).length ≤ 1
    rw [horders, List.filter_append]
    by_cases hu : u = uid
    · subst hu
      have h0 : List.filter (fun x => x.user_id == u && x.status == "pending") db.orders
          = [] := hnp
      rw [h0]
      simp [List.filter, huid, hst]
    · have huu : (o.user_id == u) = false := by
        rw [huid]
        exact beq_eq_false_iff_ne.mpr (fun hh => hu hh.symm)
      have h1 : List.filter (fun x => x.user_id == u && x.status == "pending") [o] = [] := by
        simp [List.filter, huu]
      rw [h1, List.append_nil]
      exact hInv.2 u

theorem inv_create_order (db : DB) (uid : Nat) (failAt : DbFailure) (hInv : Inv db) :
    Inv (create_order db uid failAt).2 := by
  unfold create_order
  split
  · exact hInv
  · rename_i hp
    split
    · exact hInv
    · rename_i cart hcart
      dsimp only
      split
      · exact hInv
      · have hnp : pendingOrders db uid = [] := by
          have h1 : (pendingOrders db uid).isEmpty = true := by
            revert hp
            cases (pendingOrders db uid).isEmpty <;> simp
          cases hq : pendingOrders db uid with
          | nil => rfl
          | cons a l => rw [hq] at h1; cases h1
        split
        · exact hInv
        · exact inv_orders_append_pending db uid _ _ rfl hInv hnp rfl rfl
        · exact inv_orders_append_pending db uid _ _ rfl hInv hnp rfl rfl

theorem inv_cancel_order (db : DB) (oid uid : Nat) (hInv : Inv db) :
    Inv (cancel_order db oid uid).2 := by
  unfold cancel_order
  split
  · exact hInv
  · rename_i o ho
    split
    · exact hInv
    · split
      · exact hInv
      · rename_i hpend
        have hpend' : o.status = "pending" := by
          have h1 : (o.status == "pending") = true := by
            revert hpend
            cases (o.status == "pending") <;> simp
          exact eq_of_beq h1
        constructor
        · intro o' ho'
          rcases mem_setOrderStatusFirst ho' with h | h
          · exact hInv.1 o' h
          · exact Or.inr (Or.inr h)
        · intro u
          have hfound : ∀ o' : Order, db.orders.find? (fun o' => o'.id == oid) = some o' →
              o'.status = "pending" := by
            intro o' ho'
            have h1 : findOrder db oid = some o' := ho'
            rw [ho] at h1
            rw [(Option.some.inj h1).symm]
            exact hpend'
          show ((setOrderStatusFirst db.orders oid "cancelled").filter _).length ≤ 1
          exact Nat.le_trans (setFirst_pending_length db.orders oid "cancelled" u hfound)
            (hInv.2 u)

theorem inv_delete_order (db : DB) (oid uid : Nat) (hInv : Inv db) :
    Inv (delete_order db oid uid).2 := by
  unfold delete_order
  split
  · exact hInv
  · split
    · exact hInv
    · split
      · exact hInv
      · constructor
        · intro o' ho'
          exact hInv.1 o' ((removeOrderById_sublist db.orders oid).subset ho')
        · intro u
          show ((removeOrderById db.orders oid).filter _).length ≤ 1
          exact Nat.le_trans
            (((removeOrderById_sublist db.orders oid).filter _).length_le)
            (hInv.2 u)

theorem update_to_pending_only_from_pending (db : DB) (oid uid : Nat) (r : OrderResponse)
    (hok : ∀ o ∈ db.orders, statusOk o)
    (h : (update_order_status db oid "pending" uid).1 = .ok r) :
    ∃ o : Order, findOrder db oid = some o ∧ o.status = "pending" := by
  unfold update_order_status at h
  rw [if_neg (by simp)] at h
  split at h
  · simp at h
  · rename_i o ho
    split at h
    · simp at h
    · split at h
      · simp at h
      · rename_i hterm
        refine ⟨o, ho, ?_⟩
        rcases hok o (findOrder_mem ho) with hs | hs | hs
        · exact hs
        · rw [hs] at hterm; simp at hterm
        · rw [hs] at hterm; simp at hterm

theorem create_order_rejects_existing_pending (db : DB) (uid : Nat) (failAt : DbFailure) (o : Order)
    (ho : o ∈ db.orders) (huid : o.user_id = uid) (hst : o.status = "pending") :
    (create_order db uid failAt).1 = .error ⟨400, "You have unpaid order"⟩ ∧
      (create_order db uid failAt).2 = db := by
  have hmem : o ∈ pendingOrders db uid := by
    apply List.mem_filter.mpr
    exact ⟨ho, by simp [huid, hst]⟩
  have hne : (pendingOrders db uid).isEmpty = false := by
    cases hq : pendingOrders db uid with
    | nil => rw [hq] at hmem; cases hmem
    | cons a l => rfl
  unfold create_order
  simp [hne]

theorem inv_update_order_status (db : DB) (oid : Nat) (s : String) (uid : Nat)
    (hInv : Inv db) : Inv (update_order_status db oid s uid).2 := by
  unfold update_order_status
  split
  · exact hInv
  · split
    · exact hInv
    · rename_i o ho
      split
      · exact hInv
      · rename_i hacc
        split
        · exact hInv
        · rename_i hterm
          constructor
          · intro o' ho'
            rcases mem_setOrderStatusFirst ho' with h | h
            · exact hInv.1 o' h
            · rename_i hvalid _ _
              have hv' : (s == "pending" || s == "paid" || s == "cancelled") = true := by
                revert hvalid
                cases (s == "pending" || s == "paid" || s == "cancelled") <;> simp
              rcases Bool.or_eq_true_iff.mp hv' with h' | h'
              · rcases Bool.or_eq_true_iff.mp h' with h'' | h''
                · exact Or.inl (h.trans (eq_of_beq h''))
                · exact Or.inr (Or.inl (h.trans (eq_of_beq h'')))
              · exact Or.inr (Or.inr (h.trans (eq_of_beq h')))
          · intro u
            have hpend : o.status = "pending" := by
              rcases hInv.1 o (findOrder_mem ho) with h | h | h
              · exact h
              · rw [h] at hterm; simp at hterm
              · rw [h] at hterm; simp at hterm
            have hfound : ∀ o' : Order, db.orders.find? (fun o' => o'.id == oid) = some o' →
                o'.status = "pending" := by
              intro o' ho'
              have h1 : findOrder db oid = some o' := ho'
              rw [ho] at h1
              rw [(Option.some.inj h1).symm]
              exact hpend
            show ((setOrderStatusFirst db.orders oid s).filter _).length ≤ 1
            exact Nat.le_trans (setFirst_pending_length db.orders oid s u hfound) (hInv.2 u)

/-- C3: every user has at most one pending order in every reachable state:
the strengthened invariant `Inv` is preserved by `create_order` (with or
without an injected failure), `update_order_status`, `cancel_order` and
`delete_order`; `create_order` fails with BadRequest "You have unpaid
order" and changes nothing when a pending order already exists; and a
successful `update_order_status` to `pending` is only possible on an order
already pending. -/
theorem at_most_one_pending_order_invariant :
    (∀ (db : DB) (uid : Nat) (failAt : DbFailure), Inv db → Inv (create_order db uid failAt).2) ∧
    (∀ (db : DB) (uid : Nat) (failAt : DbFailure) (o : Order),
      o ∈ db.orders → o.user_id = uid → o.status = "pending" →
      (create_order db uid failAt).1 = .error ⟨400, "You have unpaid order"⟩ ∧
        (create_order db uid failAt).2 = db) ∧
    (∀ (db : DB) (oid : Nat) (s : String) (uid : Nat),
      Inv db → Inv (update_order_status db oid s uid).2) ∧
    (∀ (db : DB) (oid uid : Nat), Inv db → Inv (cancel_order db oid uid).2) ∧
    (∀ (db : DB) (oid uid : Nat), Inv db → Inv (delete_order db oid uid).2) ∧
    (∀ (db : DB) (oid uid : Nat) (r : OrderResponse),
      (∀ o ∈ db.orders, statusOk o) →
      (update_order_status db oid "pending" uid).1 = .ok r →
      ∃ o : Order, findOrder db oid = some o ∧ o.status = "pending") :=
  ⟨inv_create_order, create_order_rejects_existing_pending, inv_update_order_status,
   inv_cancel_order, inv_delete_order, update_to_pending_only_from_pending⟩

/-- A user who already has a pending order (id 9, created at time 5). -/
def dbPending : DB :=
  { users := [⟨1, "user", "alice@example.com"⟩]
    movies := [⟨7, "Inception", 10, 2010, ["Sci-Fi"]⟩]
    carts := [⟨3, 1⟩]
    cartItems := [⟨3, 7⟩]
    orders := [⟨9, 1, "pending", 10, 5⟩]
    orderItems := [⟨9, 7, 10⟩]
    now := 1000 }

theorem at_most_one_pending_order_invariant_witness :
    ((⟨9, 1, "pending", 10, 5⟩ : Order) ∈ dbPending.orders ∧
     (create_order dbPending 1 .noFailure).1 = .error ⟨400, "You have unpaid order"⟩ ∧
     (create_order dbPending 1 .noFailure).2 = dbPending) ∧
    (Inv dbTenDollar ∧ Inv (create_order dbTenDollar 1 .noFailure).2) := by
  have hInv : Inv dbTenDollar := by
    constructor
    · intro o ho
      simp [dbTenDollar] at ho
    · intro u
      simp [pendingOrders, dbTenDollar]
  have h2 := at_most_one_pending_order_invariant.2.1 dbPending 1 .noFailure
    ⟨9, 1, "pending", 10, 5⟩ (by decide) (by decide) (by decide)
  exact ⟨⟨by decide, h2.1, h2.2⟩,
         hInv, at_most_one_pending_order_invariant.1 dbTenDollar 1 .noFailure hInv⟩


/-! ### Ownership/admin access checks -/

theorem checkAccess_eq (db : DB) (o : Order) (uid : Nat) (u : User)
    (hu : findUser db uid = some u) :
    checkAccess db o uid =
      if o.user_id ≠ uid ∧ u.group ≠ "admin" then some ⟨403, "Access forbidden"⟩
      else none := by
  unfold checkAccess
  by_cases h1 : (o.user_id == uid) = true
  · have he : o.user_id = uid := eq_of_beq h1
    rw [if_pos h1, if_neg (by simp [he])]
  · have hne : o.user_id ≠ uid := fun hh => h1 (by simp [hh])
    rw [if_neg h1, hu]
    by_cases h2 : (u.group == "admin") = true
    · have he2 : u.group = "admin" := eq_of_beq h2
      simp [h2, he2]
    · have hne2 : u.group ≠ "admin" := fun hh => h2 (by simp [hh])
      simp [h2, hne, hne2]

theorem checkAccess_none_of_owner (db : DB) (o : Order) (uid : Nat)
    (h : o.user_id = uid) : checkAccess db o uid = none := by
  unfold checkAccess
  rw [if_pos (by simp [h])]

theorem checkAccess_none_of_admin (db : DB) (o : Order) (uid : Nat) (u : User)
    (hu : findUser db uid = some u) (hadmin : u.group = "admin") :
    checkAccess db o uid = none := by
  rw [checkAccess_eq db o uid u hu, if_neg (by simp [hadmin])]

theorem checkAccess_of_pass (db : DB) (o : Order) (uid : Nat)
    (h : o.user_id = uid ∨ ∃ u, findUser db uid = some u ∧ u.group = "admin") :
    checkAccess db o uid = none := by
  rcases h with h | ⟨u, hu, hadmin⟩
  · exact checkAccess_none_of_owner db o uid h
  · exact checkAccess_none_of_admin db o uid u hu hadmin

/-- Requesters and an order used by the access-check counterexamples:
order 1 belongs to user 1; user 2 exists and is not an admin. -/
def dbAccess : DB :=
  { users := [⟨1, "user", "alice@example.com"⟩, ⟨2, "user", "bob@example.com"⟩]
    movies := []
    carts := []
    cartItems := []
    orders := [⟨1, 1, "pending", 10, 5⟩]
    orderItems := []
    now := 100 }

/-- C4 counterexample: for `update_order_status` the claimed equivalence
fails — with an existing order and an existing requester who is neither the
owner nor an admin, a call with an invalid status string fails with
BadRequest "Invalid status" (the validity check runs first), not with
Forbidden. -/
theorem order_access_check_cex :
    findOrder dbAccess 1 = some ⟨1, 1, "pending", 10, 5⟩ ∧
    findUser dbAccess 2 = some ⟨2, "user", "bob@example.com"⟩ ∧
    (1 : Nat) ≠ 2 ∧ "user" ≠ "admin" ∧
    (update_order_status dbAccess 1 "shipped" 2).1 = .error ⟨400, "Invalid status"⟩ ∧
    (update_order_status dbAccess 1 "shipped" 2).1 ≠ .error ⟨403, "Access forbidden"⟩ := by
  decide

/-- C4 (amended): for every existing order and existing requester,
`get_order`, `cancel_order` and `delete_order` fail with Forbidden exactly
when the requester is neither the order's owner nor in the admin group;
for `update_order_status` the same equivalence holds provided the supplied
status is one of the three valid ones (an invalid status fails with
BadRequest before the access check). -/
theorem order_access_forbidden_iff (db : DB) (oid uid : Nat) (o : Order) (u : User)
    (ho : findOrder db oid = some o) (hu : findUser db uid = some u) :
    ((get_order db oid uid = .error ⟨403, "Access forbidden"⟩) ↔
      (o.user_id ≠ uid ∧ u.group ≠ "admin")) ∧
    (((cancel_order db oid uid).1 = .error ⟨403, "Access forbidden"⟩) ↔
      (o.user_id ≠ uid ∧ u.group ≠ "admin")) ∧
    (((delete_order db oid uid).1 = .error ⟨403, "Access forbidden"⟩) ↔
      (o.user_id ≠ uid ∧ u.group ≠ "admin")) ∧
    (∀ s : String, (s == "pending" || s == "paid" || s == "cancelled") = true →
      (((update_order_status db oid s uid).1 = .error ⟨403, "Access forbidden"⟩) ↔
        (o.user_id ≠ uid ∧ u.group ≠ "admin"))) := by
  by_cases hf : o.user_id ≠ uid ∧ u.group ≠ "admin"
  · have hacc : checkAccess db o uid = some ⟨403, "Access forbidden"⟩ := by
      rw [checkAccess_eq db o uid u hu, if_pos hf]
    refine ⟨⟨fun _ => hf, fun _ => ?_⟩, ⟨fun _ => hf, fun _ => ?_⟩,
      ⟨fun _ => hf, fun _ => ?_⟩, fun s hs => ⟨fun _ => hf, fun _ => ?_⟩⟩
    · simp [get_order, ho, hacc]
    · simp [cancel_order, ho, hacc]
    · simp [delete_order, ho, hacc]
    · simp [update_order_status, hs, ho, hacc]
  · have hacc : checkAccess db o uid = none := by
      rw [checkAccess_eq db o uid u hu, if_neg hf]
    have hget : get_order db oid uid ≠ .error ⟨403, "Access forbidden"⟩ := by
      simp only [get_order, ho, hacc]
      split <;> simp
    have hcancel : (cancel_order db oid uid).1 ≠ .error ⟨403, "Access forbidden"⟩ := by
      simp only [cancel_order, ho, hacc]
      split <;> simp
    have hdelete : (delete_order db oid uid).1 ≠ .error ⟨403, "Access forbidden"⟩ := by
      simp only [delete_order, ho, hacc]
      split <;> simp
    refine ⟨⟨fun hh => absurd hh hget, fun hh => absurd hh hf⟩,
      ⟨fun hh => absurd hh hcancel, fun hh => absurd hh hf⟩,
      ⟨fun hh => absurd hh hdelete, fun hh => absurd hh hf⟩, fun s hs => ?_⟩
    have hupd : (update_order_status db oid s uid).1 ≠ .error ⟨403, "Access forbidden"⟩ := by
      simp only [update_order_status, hs, Bool.not_true, Bool.false_eq_true, if_false, ho, hacc]
      split <;> simp
    exact ⟨fun hh => absurd hh hupd, fun hh => absurd hh hf⟩

theorem order_access_forbidden_iff_witness :
    (findOrder dbAccess 1 = some ⟨1, 1, "pending", 10, 5⟩ ∧
     findUser dbAccess 2 = some ⟨2, "user", "bob@example.com"⟩) ∧
    ((get_order dbAccess 1 2 = .error ⟨403, "Access forbidden"⟩) ↔
      ((⟨1, 1, "pending", 10, 5⟩ : Order).user_id ≠ 2 ∧
        (⟨2, "user", "bob@example.com"⟩ : User).group ≠ "admin")) :=
  ⟨⟨by decide, by decide⟩,
   (order_access_forbidden_iff dbAccess 1 2 ⟨1, 1, "pending", 10, 5⟩
     ⟨2, "user", "bob@example.com"⟩ (by decide) (by decide)).1⟩

/-- An order already paid, owned by user 1; user 2 is not an admin. -/
def dbPaid : DB :=
  { users := [⟨1, "user", "alice@example.com"⟩, ⟨2, "user", "bob@example.com"⟩]
    movies := []
    carts := []
    cartItems := []
    orders := [⟨1, 1, "paid", 10, 5⟩]
    orderItems := [⟨1, 7, 10⟩]
    now := 100 }

/-- C5 counterexample: a call on a paid order does not always fail with
BadRequest — when the requester is neither the owner nor an admin, the
access check runs first and all three mutating operations fail with
Forbidden (403) instead. -/
theorem terminal_order_forbidden_cex :
    findOrder dbPaid 1 = some ⟨1, 1, "paid", 10, 5⟩ ∧
    (update_order_status dbPaid 1 "cancelled" 2).1 = .error ⟨403, "Access forbidden"⟩ ∧
    (cancel_order dbPaid 1 2).1 = .error ⟨403, "Access forbidden"⟩ ∧
    (delete_order dbPaid 1 2).1 = .error ⟨403, "Access forbidden"⟩ := by
  decide

/-- C5 (amended): an order whose status is `paid` or `cancelled` is never
changed or deleted — every call of `update_order_status`, `cancel_order`
or `delete_order` on it fails and leaves the state unchanged, and when the
requester passes the ownership/admin check (and, for `update_order_status`,
supplies a valid status) the failure is BadRequest with the terminal-state
detail; the error is Forbidden/NotFound instead when the access check fails
first. -/
theorem terminal_order_immutable (db : DB) (oid uid : Nat) (o : Order)
    (ho : findOrder db oid = some o)
    (hterm : o.status = "paid" ∨ o.status = "cancelled") :
    (∀ s : String, (update_order_status db oid s uid).2 = db ∧
      ∀ r : OrderResponse, (update_order_status db oid s uid).1 ≠ .ok r) ∧
    ((cancel_order db oid uid).2 = db ∧
      ∀ r : OrderResponse, (cancel_order db oid uid).1 ≠ .ok r) ∧
    ((delete_order db oid uid).2 = db ∧ (delete_order db oid uid).1 ≠ .ok ()) ∧
    ((o.user_id = uid ∨ ∃ u : User, findUser db uid = some u ∧ u.group = "admin") →
      (∀ s : String, (s == "pending" || s == "paid" || s == "cancelled") = true →
        (update_order_status db oid s uid).1 =
          .error ⟨400, "Cannot update a paid or cancelled order"⟩) ∧
      (cancel_order db oid uid).1 = .error ⟨400, "Only pending orders can be cancelled"⟩ ∧
      (delete_order db oid uid).1 = .error ⟨400, "Cannot delete a paid or cancelled order"⟩) := by
  have htermB : (o.status == "paid" || o.status == "cancelled") = true := by
    rcases hterm with h | h <;> simp [h]
  have hnp : (o.status == "pending") = false := by
    rcases hterm with h | h <;> simp [h]
  refine ⟨?_, ?_, ?_, ?_⟩
  · intro s
    by_cases hs : (s == "pending" || s == "paid" || s == "cancelled") = true
    · simp only [update_order_status, hs, Bool.not_true, Bool.false_eq_true, if_false, ho]
      cases hacc : checkAccess db o uid with
      | some e => simp [hacc]
      | none => simp [hacc, htermB]
    · have hs' : (!(s == "pending" || s == "paid" || s == "cancelled")) = true := by
        revert hs
        cases (s == "pending" || s == "paid" || s == "cancelled") <;> simp
      simp [update_order_status, hs']
  · simp only [cancel_order, ho]
    cases hacc : checkAccess db o uid with
    | some e => simp [hacc]
    | none => simp [hacc, hnp]
  · simp only [delete_order, ho]
    cases hacc : checkAccess db o uid with
    | some e => simp [hacc]
    | none => simp [hacc, hnp]
  · intro hpass
    have hacc : checkAccess db o uid = none := checkAccess_of_pass db o uid hpass
    refine ⟨?_, ?_, ?_⟩
    · intro s hs
      simp [update_order_status, hs, ho, hacc, htermB]
    · simp [cancel_order, ho, hacc, hnp]
    · simp [delete_order, ho, hacc, hnp]

theorem terminal_order_immutable_witness :
    (findOrder dbPaid 1 = some ⟨1, 1, "paid", 10, 5⟩ ∧
     (⟨1, 1, "paid", 10, 5⟩ : Order).status = "paid") ∧
    (cancel_order dbPaid 1 1).2 = dbPaid ∧
    (cancel_order dbPaid 1 1).1 = .error ⟨400, "Only pending orders can be cancelled"⟩ :=
  ⟨⟨by decide, by decide⟩,
   (terminal_order_immutable dbPaid 1 1 ⟨1, 1, "paid", 10, 5⟩ (by decide)
     (Or.inl (by decide))).2.1.1,
   ((terminal_order_immutable dbPaid 1 1 ⟨1, 1, "paid", 10, 5⟩ (by decide)
     (Or.inl (by decide))).2.2.2 (Or.inl (by decide))).2.1⟩

/-- C8: for an existing order whose requester passes the ownership/admin
check, `get_order` fails with BadRequest "Order is cancelled and cannot be
accessed" exactly when the order's status is `cancelled`; on a `pending` or
`paid` order it returns the order view with its items' movie names
resolved. -/
theorem get_order_cancelled_iff (db : DB) (oid uid : Nat) (o : Order)
    (ho : findOrder db oid = some o)
    (hpass : o.user_id = uid ∨ ∃ u : User, findUser db uid = some u ∧ u.group = "admin") :
    ((get_order db oid uid = .error ⟨400, "Order is cancelled and cannot be accessed"⟩) ↔
      o.status = "cancelled") ∧
    (o.status = "pending" ∨ o.status = "paid" →
      get_order db oid uid =
        .ok ⟨o.id, o.user_id, o.created_at, o.status, o.total_amount, movieNamesOf db o.id⟩) := by
  have hacc : checkAccess db o uid = none := checkAccess_of_pass db o uid hpass
  by_cases hc : (o.status == "cancelled") = true
  · have hc' : o.status = "cancelled" := eq_of_beq hc
    constructor
    · exact ⟨fun _ => hc', fun _ => by simp [get_order, ho, hacc, hc]⟩
    · intro h
      rcases h with h | h <;> rw [h] at hc' <;> exact absurd hc' (by decide)
  · have hc' : o.status ≠ "cancelled" := fun hh => hc (by simp [hh])
    constructor
    · constructor
      · intro hcon
        exfalso
        rw [show get_order db oid uid =
            .ok ⟨o.id, o.user_id, o.created_at, o.status, o.total_amount, movieNamesOf db o.id⟩
          from by simp [get_order, ho, hacc, hc]] at hcon
        cases hcon
      · intro hh; exact absurd hh hc'
    · intro _
      simp [get_order, ho, hacc, hc]

/-- A cancelled order owned by user 1. -/
def dbCancelled : DB :=
  { users := [⟨1, "user", "alice@example.com"⟩]
    movies := [⟨7, "Inception", 10, 2010, ["Sci-Fi"]⟩]
    carts := []
    cartItems := []
    orders := [⟨1, 1, "cancelled", 10, 5⟩]
    orderItems := [⟨1, 7, 10⟩]
    now := 100 }

theorem get_order_cancelled_iff_witness :
    (findOrder dbCancelled 1 = some ⟨1, 1, "cancelled", 10, 5⟩ ∧
     (⟨1, 1, "cancelled", 10, 5⟩ : Order).user_id = 1) ∧
    ((get_order dbCancelled 1 1 =
        .error ⟨400, "Order is cancelled and cannot be accessed"⟩) ↔
      (⟨1, 1, "cancelled", 10, 5⟩ : Order).status = "cancelled") :=
  ⟨⟨by decide, by decide⟩,
   (get_order_cancelled_iff dbCancelled 1 1 ⟨1, 1, "cancelled", 10, 5⟩ (by decide)
     (Or.inl (by decide))).1⟩

/-- C9: in `get_cart` the requester is looked up by their own id, so the
ownership condition `user.id != user_id` can never hold and the Forbidden
branch is dead code — `get_cart` never returns a 403; and since the cart
query also filters on the requester's own user id, a request (by anyone,
admins included) for a cart id that belongs to a different user answers
NotFound "Cart not found.". -/
theorem get_cart_forbidden_unreachable (db : DB) (cart_id uid : Nat) :
    (∀ d : String, get_cart db cart_id uid ≠ .error ⟨403, d⟩) ∧
    (∀ u : User, findUser db uid = some u →
      (∀ c ∈ db.carts, c.id = cart_id → c.user_id ≠ uid) →
      get_cart db cart_id uid = .error ⟨404, "Cart not found."⟩) := by
  constructor
  · intro d
    cases hu : findUser db uid with
    | none => simp [get_cart, hu]
    | some u =>
      have hid : u.id = uid := findUser_id hu
      have hbne : (u.id != uid) = false := by simp [hid]
      simp only [get_cart, hu, hbne, Bool.and_false, Bool.false_eq_true, if_false]
      split <;> simp
  · intro u hu hno
    have hid : u.id = uid := findUser_id hu
    have hbne : (u.id != uid) = false := by simp [hid]
    have hfind : db.carts.find? (fun c => c.id == cart_id && c.user_id == uid) = none := by
      apply List.find?_eq_none.mpr
      intro c hc
      intro hcb
      have h1 : c.id = cart_id := eq_of_beq (Bool.and_elim_left hcb)
      have h2 : c.user_id = uid := eq_of_beq (Bool.and_elim_right hcb)
      exact hno c hc h1 h2
    simp [get_cart, hu, hbne, hfind]

/-- A cart (id 3) belonging to user 1; user 2 is an admin. -/
def dbOtherCart : DB :=
  { users := [⟨1, "user", "alice@example.com"⟩, ⟨2, "admin", "root@example.com"⟩]
    movies := []
    carts := [⟨3, 1⟩]
    cartItems := []
    orders := []
    orderItems := []
    now := 100 }

theorem get_cart_forbidden_unreachable_witness :
    (findUser dbOtherCart 2 = some ⟨2, "admin", "root@example.com"⟩ ∧
     (∀ c ∈ dbOtherCart.carts, c.id = 3 → c.user_id ≠ 2)) ∧
    get_cart dbOtherCart 3 2 = .error ⟨404, "Cart not found."⟩ :=
  ⟨⟨by decide, by decide⟩,
   (get_cart_forbidden_unreachable dbOtherCart 3 2).2 ⟨2, "admin", "root@example.com"⟩
     (by decide) (by decide)⟩

/-- User 5 with cart 3 holding movie 7; movie 8 and cart 99 do not exist. -/
def dbCartErr : DB :=
  { users := [⟨5, "user", "eve@example.com"⟩]
    movies := [⟨7, "Inception", 10, 2010, ["Sci-Fi"]⟩, ⟨12, "Heat", 8, 1995, ["Crime"]⟩]
    carts := [⟨3, 5⟩]
    cartItems := [⟨3, 7⟩]
    orders := []
    orderItems := []
    now := 0 }

/-- C7 counterexample: when the movie (or the cart) is missing,
`remove_movie_from_cart` answers 400 BadRequest, not the claimed 404
NotFound — only the missing-user and missing-cart-item cases are 404. -/
theorem remove_from_cart_missing_movie_is_400_cex :
    (findUser dbCartErr 5).isSome = true ∧
    findMovie dbCartErr 8 = none ∧
    (remove_movie_from_cart dbCartErr 8 3 5 false).1 = .error ⟨400, "Movie not found"⟩ ∧
    (remove_movie_from_cart dbCartErr 7 99 5 false).1 = .error ⟨400, "Cart not found"⟩ := by
  decide

/-- C7 (amended): `remove_movie_from_cart` fails whenever the user, movie,
cart or cart-item is missing and leaves the state unchanged, but the
status is 404 only for a missing user or a missing cart-item; a missing
movie or a missing cart is answered with 400 BadRequest. -/
theorem remove_from_cart_error_statuses (db : DB) (movie_id cart_id uid : Nat) (fail : Bool) :
    (findUser db uid = none →
      remove_movie_from_cart db movie_id cart_id uid fail =
        (.error ⟨404, "User not found. Please sign up."⟩, db)) ∧
    ((findUser db uid).isSome = true → findMovie db movie_id = none →
      remove_movie_from_cart db movie_id cart_id uid fail =
        (.error ⟨400, "Movie not found"⟩, db)) ∧
    ((findUser db uid).isSome = true → (findMovie db movie_id).isSome = true →
      db.carts.find? (fun c => c.id == cart_id && c.user_id == uid) = none →
      remove_movie_from_cart db movie_id cart_id uid fail =
        (.error ⟨400, "Cart not found"⟩, db)) ∧
    (∀ cart : Cart, (findUser db uid).isSome = true → (findMovie db movie_id).isSome = true →
      db.carts.find? (fun c => c.id == cart_id && c.user_id == uid) = some cart →
      db.cartItems.find? (fun ci => ci.cart_id == cart.id && ci.movie_id == movie_id) = none →
      remove_movie_from_cart db movie_id cart_id uid fail =
        (.error ⟨404, "Movie not found in cart"⟩, db)) := by
  refine ⟨?_, ?_, ?_, ?_⟩
  · intro hu
    simp [remove_movie_from_cart, hu]
  · intro hu hm
    obtain ⟨u, hu'⟩ := Option.isSome_iff_exists.mp hu
    simp [remove_movie_from_cart, hu', hm]
  · intro hu hm hc
    obtain ⟨u, hu'⟩ := Option.isSome_iff_exists.mp hu
    obtain ⟨m, hm'⟩ := Option.isSome_iff_exists.mp hm
    simp [remove_movie_from_cart, hu', hm', hc]
  · intro cart hu hm hc hi
    obtain ⟨u, hu'⟩ := Option.isSome_iff_exists.mp hu
    obtain ⟨m, hm'⟩ := Option.isSome_iff_exists.mp hm
    simp [remove_movie_from_cart, hu', hm', hc, hi]

theorem remove_from_cart_error_statuses_witness :
    ((findUser dbCartErr 5).isSome = true ∧
     (findMovie dbCartErr 7).isSome = true ∧
     dbCartErr.carts.find? (fun c => c.id == (3 : Nat) && c.user_id == (5 : Nat)) =
       some ⟨3, 5⟩ ∧
     dbCartErr.cartItems.find?
       (fun ci => ci.cart_id == (3 : Nat) && ci.movie_id == (12 : Nat)) = none) ∧
    remove_movie_from_cart dbCartErr 12 3 5 false =
      (.error ⟨404, "Movie not found in cart"⟩, dbCartErr) :=
  ⟨⟨by decide, by decide, by decide, by decide⟩,
   (remove_from_cart_error_statuses dbCartErr 12 3 5 false).2.2.2 ⟨3, 5⟩
     (by decide) (by decide) (by decide) (by decide)⟩

/-- A non-admin user (id 2) who owns one order. -/
def dbNonAdmin : DB :=
  { users := [⟨2, "user", "bob@example.com"⟩]
    movies := []
    carts := []
    cartItems := []
    orders := [⟨1, 2, "pending", 10, 5⟩]
    orderItems := []
    now := 9 }

/-- C6 counterexample: a supplied filter is not always rejected for a
non-admin — Python truthiness treats `user_id=0` and `status=""` as absent,
so a non-admin request supplying them succeeds instead of failing with
Forbidden. -/
theorem list_orders_falsy_filter_cex :
    findUser dbNonAdmin 2 = some ⟨2, "user", "bob@example.com"⟩ ∧
    (get_orders dbNonAdmin 1 10 none (some 0) none 2).isOk = true ∧
    get_orders dbNonAdmin 1 10 (some "") none none 2 ≠
      .error ⟨403, "Access forbidden for non-admin users"⟩ := by
  decide

/-- C6 (amended): for a non-admin requester, `get_orders` fails with
Forbidden whenever any of the status / user_id / order_date filters is
supplied with a truthy value (a supplied empty string or zero is treated
as absent); with no filters supplied the call succeeds and the result
contains only the requester's own orders, ordered by `created_at`
descending. -/
theorem list_orders_filter_access :
    (∀ (db : DB) (page per : Nat) (s : Option String) (u_ : Option Nat) (d : Option String)
       (uid : Nat) (u : User), findUser db uid = some u → u.group ≠ "admin" →
       (truthyS s || truthyN u_ || truthyS d) = true →
       get_orders db page per s u_ d uid =
         .error ⟨403, "Access forbidden for non-admin users"⟩) ∧
    (∀ (db : DB) (page per : Nat) (uid : Nat) (u : User), findUser db uid = some u →
       ∃ resp : OrderListResponse, get_orders db page per none none none uid = .ok resp ∧
         (∀ v ∈ resp.orders, v.user_id = uid) ∧
         List.Sorted (fun a b : OrderWithMovies => b.created_at ≤ a.created_at) resp.orders) := by
  constructor
  · intro db page per s u_ d uid u hu hnadmin ht
    have hg : (u.group != "admin") = true := bne_iff_ne.mpr hnadmin
    unfold get_orders
    rw [hu]
    simp [hg, ht, Bind.bind, Except.bind, throw, throwThe, MonadExceptOf.throw,
      Functor.map, Except.map]
  · intro db page per uid u hu
    have hid : u.id = uid := findUser_id hu
    unfold get_orders
    rw [hu]
    simp only [truthyS, truthyN, Bool.or_self, Bool.or_false, Bool.and_false,
      Bool.false_eq_true, if_false]
    refine ⟨_, rfl, ?_, ?_⟩
    · intro v hv
      rcases List.mem_map.mp hv with ⟨o, ho, rfl⟩
      have h2 : o ∈ List.insertionSort createdGe
          (List.filter (fun o => o.user_id == u.id) db.orders) :=
        List.drop_subset _ _ (List.take_subset _ _ ho)
      have h3 : o ∈ List.filter (fun o => o.user_id == u.id) db.orders :=
        (List.mem_insertionSort createdGe).mp h2
      have h4 : (o.user_id == u.id) = true := (List.mem_filter.mp h3).2
      exact (eq_of_beq h4).trans hid
    · have hs1 : List.Sorted createdGe (List.insertionSort createdGe
          (List.filter (fun o => o.user_id == u.id) db.orders)) :=
        List.sorted_insertionSort createdGe _
      have hs2 : List.Sorted createdGe (List.take per (List.drop ((page - 1) * per)
          (List.insertionSort createdGe
            (List.filter (fun o => o.user_id == u.id) db.orders)))) :=
        List.Pairwise.sublist
          ((List.take_sublist _ _).trans (List.drop_sublist _ _)) hs1
      exact List.Pairwise.map _ (fun a b h => h) hs2

theorem list_orders_filter_access_witness :
    (findUser dbNonAdmin 2 = some ⟨2, "user", "bob@example.com"⟩ ∧
     ("user" : String) ≠ "admin" ∧
     (truthyS (some "paid") || truthyN none || truthyS none) = true) ∧
    get_orders dbNonAdmin 1 10 (some "paid") none none 2 =
      .error ⟨403, "Access forbidden for non-admin users"⟩ ∧
    (∃ resp : OrderListResponse, get_orders dbNonAdmin 1 10 none none none 2 = .ok resp ∧
      (∀ v ∈ resp.orders, v.user_id = 2) ∧
      List.Sorted (fun a b : OrderWithMovies => b.created_at ≤ a.created_at) resp.orders) :=
  ⟨⟨by decide, by decide, by decide⟩,
   list_orders_filter_access.1 dbNonAdmin 1 10 (some "paid") none none 2
     ⟨2, "user", "bob@example.com"⟩ (by decide) (by decide) (by decide),
   list_orders_filter_access.2 dbNonAdmin 1 10 2 ⟨2, "user", "bob@example.com"⟩ (by decide)⟩

end Cinema




